import Mathlib

/-!
Verification development for the EchoMind backend (multimodal emotion
inference and analytics engine).  Scores are embedded as rationals,
timestamps as integers (days), and the external classifier / analyzer /
database calls as explicit parameters, following the Python source in
`src/backend/`.
-/

namespace EchoMind

/-! ## Sentiment scorer (`src/backend/sentiment_analysis.py`) -/

/-- VADER-style sentiment scores: `compound`, `pos`, `neu`, `neg`. -/
structure SentimentScores where
  compound : ℚ
  pos : ℚ
  neu : ℚ
  neg : ℚ
deriving DecidableEq

/-- The canonical neutral score returned for empty text and on analyzer
failure: `{"compound": 0.0, "pos": 0.0, "neu": 1.0, "neg": 0.0}`. -/
def neutralScore : SentimentScores := ⟨0, 0, 1, 0⟩

/-- Python's guard `not text or not text.strip()`: true exactly when the
text is empty or consists only of whitespace characters. -/
def isBlank (text : String) : Bool := text.toList.all Char.isWhitespace

/-- Embedding of `analyze_sentiment`.  The underlying VADER analyzer is an
external collaborator, modelled as a function `analyzer` that either
returns scores or fails (`none`, modelling a raised exception caught by
the `except` block).  Empty / whitespace-only text (`not text or not
text.strip()`) short-circuits to the neutral default without consulting
the analyzer. -/
def analyze_sentiment (analyzer : String → Option SentimentScores) (text : String) :
    SentimentScores :=
  if isBlank text then neutralScore
  else
    match analyzer text with
    | some scores => scores
    | none => neutralScore

/-- Embedding of `get_sentiment_label`: `compound >= 0.05` is Positive,
`compound <= -0.05` is Negative, otherwise Neutral. -/
def get_sentiment_label (compound_score : ℚ) : String :=
  if compound_score ≥ 1/20 then "Positive"
  else if compound_score ≤ -(1/20) then "Negative"
  else "Neutral"

/-- Embedding of `calculate_conversation_length`: total character count of
the two texts. -/
def calculate_conversation_length (user_message assistant_response : String) : ℕ :=
  user_message.length + assistant_response.length

/-- Helper: the label is Positive exactly when the compound clears 0.05. -/
lemma label_pos_iff (x : ℚ) : get_sentiment_label x = "Positive" ↔ 1/20 ≤ x := by
  unfold get_sentiment_label
  split_ifs with h1 h2
  · exact iff_of_true rfl h1
  · exact iff_of_false (by decide) h1
  · exact iff_of_false (by decide) h1

/-- Helper: the label is Negative exactly when the compound is at most -0.05. -/
lemma label_neg_iff (x : ℚ) : get_sentiment_label x = "Negative" ↔ x ≤ -(1/20) := by
  unfold get_sentiment_label
  split_ifs with h1 h2
  · exact iff_of_false (by decide) (fun h => by simp only [ge_iff_le] at h1; linarith)
  · exact iff_of_true rfl h2
  · exact iff_of_false (by decide) h2

/-- Helper: the label is Neutral exactly on the open interval (-0.05, 0.05). -/
lemma label_neu_iff (x : ℚ) : get_sentiment_label x = "Neutral" ↔ -(1/20) < x ∧ x < 1/20 := by
  unfold get_sentiment_label
  split_ifs with h1 h2
  · exact iff_of_false (by decide) (fun h => absurd h.2 (not_lt.mpr h1))
  · exact iff_of_false (by decide) (fun h => absurd h.1 (not_lt.mpr h2))
  · exact iff_of_true rfl ⟨not_le.mp h2, not_le.mp h1⟩

end EchoMind

namespace EchoMind

/-- C8: sentiment-label derivation is total and single-valued, mapping
every compound value to exactly one label per the ±0.05 thresholds, with the
boundary values 0.05 and -0.05 mapping to Positive and Negative. -/
theorem get_sentiment_label_total_threshold (c : ℚ) :
    (get_sentiment_label c = "Positive" ↔ 1/20 ≤ c) ∧
    (get_sentiment_label c = "Negative" ↔ c ≤ -(1/20)) ∧
    (get_sentiment_label c = "Neutral" ↔ -(1/20) < c ∧ c < 1/20) ∧
    get_sentiment_label (1/20) = "Positive" ∧
    get_sentiment_label (-(1/20)) = "Negative" :=
  ⟨label_pos_iff c, label_neg_iff c, label_neu_iff c,
    (label_pos_iff _).mpr (by norm_num), (label_neg_iff _).mpr le_rfl⟩

/-- C9: the sentiment scorer never propagates a failure to its caller: on
empty or whitespace-only text it returns the canonical neutral score without
consulting the analyzer (the result does not depend on the analyzer at all),
on analyzer failure it returns the same neutral default, and in every case
the result is either the analyzer's output or the neutral default. -/
theorem analyze_sentiment_neutral_default
    (analyzer : String → Option SentimentScores) (text : String) :
    (isBlank text = true →
      analyze_sentiment analyzer text = neutralScore ∧
      ∀ other : String → Option SentimentScores,
        analyze_sentiment other text = neutralScore) ∧
    (analyzer text = none → analyze_sentiment analyzer text = neutralScore) ∧
    (analyze_sentiment analyzer text = neutralScore ∨
      ∃ s, analyzer text = some s ∧ analyze_sentiment analyzer text = s) := by
  refine ⟨fun h => ⟨by simp [analyze_sentiment, h], fun other => by simp [analyze_sentiment, h]⟩,
    fun h => by simp [analyze_sentiment, h], ?_⟩
  by_cases h : isBlank text = true
  · exact Or.inl (by simp [analyze_sentiment, h])
  · cases ha : analyzer text with
    | none => exact Or.inl (by simp [analyze_sentiment, h, ha])
    | some s => exact Or.inr ⟨s, rfl, by simp [analyze_sentiment, h, ha]⟩

/-- C9 witness: a failing analyzer on non-blank text and an arbitrary
analyzer on whitespace-only text both yield the neutral default. -/
theorem analyze_sentiment_neutral_default_witness :
    analyze_sentiment (fun _ => none) "so tired" = neutralScore ∧
    analyze_sentiment (fun _ => some ⟨1, 1, 0, 0⟩) "   " = neutralScore := by
  constructor
  · exact (analyze_sentiment_neutral_default (fun _ => none) "so tired").2.1 rfl
  · exact ((analyze_sentiment_neutral_default (fun _ => some ⟨1, 1, 0, 0⟩) "   ").1 (by decide)).1

end EchoMind

namespace EchoMind

/-! ## Analytics stats (`get_analytics_stats` in `src/backend/main.py`) -/

/-- A stored record's `sentiment_score` column; `none` models SQL NULL. -/
abbrev StoredScore := Option ℚ

/-- Row predicate of `filter(ChatConversation.sentiment_score > 0.05)`:
a strict SQL comparison, NULL rows excluded. -/
def statsPositivePred (s : StoredScore) : Bool :=
  match s with
  | some v => decide (1/20 < v)
  | none => false

/-- Row predicate of `filter(ChatConversation.sentiment_score < -0.05)`:
a strict SQL comparison, NULL rows excluded. -/
def statsNegativePred (s : StoredScore) : Bool :=
  match s with
  | some v => decide (v < -(1/20))
  | none => false

/-- Rows counted by neither filter: NULLs and compounds in [-0.05, 0.05]. -/
def statsNeutralPred (s : StoredScore) : Bool :=
  !statsPositivePred s && !statsNegativePred s

/-- Count `positive_count` of `get_analytics_stats`. -/
def positive_count (scores : List StoredScore) : ℕ :=
  scores.countP statsPositivePred

/-- Count `negative_count` of `get_analytics_stats`. -/
def negative_count (scores : List StoredScore) : ℕ :=
  scores.countP statsNegativePred

/-- Count `neutral_count = total_chats - positive_count - negative_count`, a Python
int subtraction, embedded in ℤ. -/
def neutral_count (scores : List StoredScore) : ℤ :=
  (scores.length : ℤ) - positive_count scores - negative_count scores

/-- Helper: the positive, negative and remaining row counts partition the
record set. -/
lemma countP_stats_partition (scores : List StoredScore) :
    scores.countP statsPositivePred + scores.countP statsNegativePred +
      scores.countP statsNeutralPred = scores.length := by
  induction scores with
  | nil => simp
  | cons s t ih =>
    simp only [List.countP_cons, List.length_cons]
    have hs : (if statsPositivePred s then 1 else 0) +
        (if statsNegativePred s then 1 else 0) +
        (if statsNeutralPred s then 1 else 0) = 1 := by
      have hnp : statsNeutralPred s = (!statsPositivePred s && !statsNegativePred s) := rfl
      cases hp : statsPositivePred s with
      | false =>
        cases hn : statsNegativePred s with
        | false => simp [hnp, hp, hn]
        | true => simp [hnp, hp, hn]
      | true =>
        cases hn : statsNegativePred s with
        | false => simp [hnp, hp, hn]
        | true =>
          exfalso
          cases s with
          | none => simp [statsPositivePred] at hp
          | some v =>
            simp only [statsPositivePred, decide_eq_true_eq] at hp
            simp only [statsNegativePred, decide_eq_true_eq] at hn
            linarith
    omega

end EchoMind

namespace EchoMind

/-- C3 counterexample: a record whose compound is exactly 0.05 receives the
label Positive from `get_sentiment_label`, yet the stats operation counts it
in the neutral bucket, not the positive one — so the stats operation does not
use the same thresholds as the label derivation. -/
theorem stats_boundary_counterexample :
    get_sentiment_label (1/20) = "Positive" ∧
    positive_count [some (1/20)] = 0 ∧
    neutral_count [some (1/20)] = 1 := by
  refine ⟨(label_pos_iff _).mpr le_rfl, ?_, ?_⟩ <;>
    norm_num [positive_count, neutral_count, negative_count,
      statsPositivePred, statsNegativePred, List.countP_cons]

/-- C3 amended: the stats operation counts Positive with strict compound >
0.05 and Negative with strict compound < -0.05, NULL scores excluded; that
agrees with `get_sentiment_label` everywhere except at the boundary values
0.05 and -0.05, which the stats operation does not count as Positive or
Negative. -/
theorem stats_thresholds_strict (scores : List StoredScore) :
    positive_count scores =
      scores.countP (fun s =>
        match s with
        | some v => decide (get_sentiment_label v = "Positive" ∧ v ≠ 1/20)
        | none => false) ∧
    negative_count scores =
      scores.countP (fun s =>
        match s with
        | some v => decide (get_sentiment_label v = "Negative" ∧ v ≠ -(1/20))
        | none => false) := by
  constructor
  · refine List.countP_congr (fun s _ => ?_)
    cases s with
    | none => simp [statsPositivePred]
    | some v =>
      simp only [statsPositivePred, decide_eq_true_eq, label_pos_iff]
      constructor
      · exact fun h => ⟨le_of_lt h, fun he => absurd he.symm (ne_of_lt h)⟩
      · exact fun h => lt_of_le_of_ne h.1 (fun he => h.2 he.symm)
  · refine List.countP_congr (fun s _ => ?_)
    cases s with
    | none => simp [statsNegativePred]
    | some v =>
      simp only [statsNegativePred, decide_eq_true_eq, label_neg_iff]
      constructor
      · exact fun h => ⟨le_of_lt h, ne_of_lt h⟩
      · exact fun h => lt_of_le_of_ne h.1 h.2

/-- C10: the three sentiment-distribution counts of the stats operation sum
exactly to the total record count, since the neutral count is defined as
total minus positive minus negative; the neutral bucket is exactly the rows
matched by neither strict filter, and a NULL sentiment score always lands
there. -/
theorem stats_distribution_sums_to_total (scores : List StoredScore) :
    (positive_count scores : ℤ) + neutral_count scores + negative_count scores =
      scores.length ∧
    neutral_count scores = scores.countP statsNeutralPred ∧
    statsNeutralPred none = true := by
  refine ⟨by unfold neutral_count; ring, ?_, rfl⟩
  have h := countP_stats_partition scores
  unfold neutral_count positive_count negative_count
  omega

end EchoMind

namespace EchoMind

/-! ## Emotion classifiers (`audio_emotion.py`, `facial_emotion.py`) -/

/-- A raw model prediction as emitted by the external classification
pipeline: `{"label": ..., "score": ...}`. -/
structure ModelPred where
  label : String
  score : ℚ
deriving DecidableEq

/-- A face-path output entry, relabelled to `{"emotion": ..., "score": ...}`. -/
structure FacePred where
  emotion : String
  score : ℚ
deriving DecidableEq

/-- Embedding of `analyze_emotion_from_wav_bytes`: the WAV bytes are written
to a temporary file and handed to the external pipeline; the pipeline's
prediction list is returned unchanged — the function performs no sorting of
its own. -/
def analyze_emotion_from_wav_bytes (preds : List ModelPred) : List ModelPred :=
  preds

/-- Descending sortedness of a list under a score projection. -/
def SortedDescBy {α : Type} (f : α → ℚ) (l : List α) : Prop :=
  l.Pairwise (fun a b => f b ≤ f a)

/-- Stable descending insertion on the score key. -/
def insertByScoreDesc (p : FacePred) : List FacePred → List FacePred
  | [] => [p]
  | q :: qs => if p.score ≤ q.score then q :: insertByScoreDesc p qs else p :: q :: qs

/-- Stable descending sort on the score key, modelling
`emotion_list.sort(key=lambda x: x["score"], reverse=True)`. -/
def sortByScoreDesc : List FacePred → List FacePred
  | [] => []
  | p :: ps => insertByScoreDesc p (sortByScoreDesc ps)

/-- Embedding of the post-classifier part of `analyze_emotion_from_image_bytes`:
an empty list when no face is detected, otherwise the raw predictions
relabelled to `{emotion, score}` entries and sorted by score, highest
first. -/
def analyze_emotion_from_image_bytes (face_detected : Bool)
    (preds : List ModelPred) : List FacePred :=
  if face_detected then
    sortByScoreDesc (preds.map (fun p => ⟨p.label, p.score⟩))
  else []

/-- Helper: membership in an insertion. -/
lemma mem_insertByScoreDesc {p x : FacePred} {l : List FacePred}
    (hx : x ∈ insertByScoreDesc p l) : x = p ∨ x ∈ l := by
  induction l with
  | nil => simpa [insertByScoreDesc] using hx
  | cons q qs ih =>
    by_cases h : p.score ≤ q.score
    · simp only [insertByScoreDesc, if_pos h, List.mem_cons] at hx
      rcases hx with rfl | hx
      · exact Or.inr (List.mem_cons_self _ _)
      · rcases ih hx with rfl | hx
        · exact Or.inl rfl
        · exact Or.inr (List.mem_cons_of_mem _ hx)
    · simp only [insertByScoreDesc, if_neg h, List.mem_cons] at hx
      rcases hx with rfl | hx
      · exact Or.inl rfl
      · exact Or.inr (List.mem_cons.mpr hx)

/-- Helper: insertion preserves descending sortedness. -/
lemma sorted_insertByScoreDesc {p : FacePred} {l : List FacePred}
    (hl : SortedDescBy FacePred.score l) :
    SortedDescBy FacePred.score (insertByScoreDesc p l) := by
  induction l with
  | nil => simp [insertByScoreDesc, SortedDescBy]
  | cons q qs ih =>
    rcases List.pairwise_cons.mp hl with ⟨hq, hqs⟩
    by_cases h : p.score ≤ q.score
    · simp only [insertByScoreDesc, if_pos h]
      refine List.pairwise_cons.mpr ⟨fun x hx => ?_, ih hqs⟩
      rcases mem_insertByScoreDesc hx with rfl | hx
      · exact h
      · exact hq x hx
    · simp only [insertByScoreDesc, if_neg h]
      refine List.pairwise_cons.mpr ⟨fun x hx => ?_, List.pairwise_cons.mpr ⟨hq, hqs⟩⟩
      rcases List.mem_cons.mp hx with rfl | hx
      · exact le_of_lt (lt_of_not_le h)
      · exact le_trans (hq x hx) (le_of_lt (lt_of_not_le h))

/-- Helper: the descending sort always yields a descending-sorted list. -/
lemma sorted_sortByScoreDesc (l : List FacePred) :
    SortedDescBy FacePred.score (sortByScoreDesc l) := by
  induction l with
  | nil => simp [sortByScoreDesc, SortedDescBy]
  | cons p ps ih => exact sorted_insertByScoreDesc ih

end EchoMind

namespace EchoMind

/-- C2 counterexample: the voice classifier returns the model's native
prediction order unchanged, so a model output listed in ascending score order
comes back unsorted — the claimed descending-order guarantee fails for the
voice path. -/
theorem voice_output_not_sorted :
    ¬ SortedDescBy ModelPred.score
        (analyze_emotion_from_wav_bytes [⟨"angry", 0⟩, ⟨"happy", 1⟩]) := by
  intro h
  have h0 := (List.pairwise_cons.mp h).1 ⟨"happy", 1⟩ (by simp)
  norm_num [ModelPred.score] at h0

/-- C2 amended: the face classifier's distribution is sorted descending by
score for every model output and detection outcome, while the voice
classifier returns the model's native ordering unchanged (its output is
sorted only when the model's already was). -/
theorem emotion_distribution_sorting (face_detected : Bool) (preds : List ModelPred) :
    SortedDescBy FacePred.score (analyze_emotion_from_image_bytes face_detected preds) ∧
    analyze_emotion_from_wav_bytes preds = preds := by
  refine ⟨?_, rfl⟩
  unfold analyze_emotion_from_image_bytes
  split_ifs
  · exact sorted_sortByScoreDesc _
  · simp [SortedDescBy]

end EchoMind

namespace EchoMind

/-! ## Face locator (`_detect_and_crop_face` in `facial_emotion.py`) -/

/-- A detector bounding box `(x, y, w, h)` in source-image pixel
coordinates. -/
structure FaceBox where
  x : ℤ
  y : ℤ
  w : ℤ
  h : ℤ
deriving DecidableEq

/-- Padding-and-clamp step of `_detect_and_crop_face`: expand the selected
box by `padding = int(max(w, h) * 0.2)` on every side, then clamp to the
image bounds; `W` and `H` are `image_array.shape[1]` and `shape[0]`.
Truncating `max(w, h) * 0.2` on a nonnegative detector size is floor
division, embedded as `2 * max w h / 10` over ℤ. -/
def padAndClampBox (W H : ℤ) (b : FaceBox) : FaceBox :=
  let padding := 2 * max b.w b.h / 10
  let x := max 0 (b.x - padding)
  let y := max 0 (b.y - padding)
  let w := min (W - x) (b.w + 2 * padding)
  let h := min (H - y) (b.h + 2 * padding)
  ⟨x, y, w, h⟩

end EchoMind

namespace EchoMind

/-- C6: for every detected box and image, the padded-and-clamped face region
satisfies `x ≥ 0`, `y ≥ 0`, `x + w ≤ image_width` and `y + h ≤ image_height`,
so the crop never exceeds the source image bounds. -/
theorem padAndClampBox_within_bounds (W H : ℤ) (b : FaceBox) :
    0 ≤ (padAndClampBox W H b).x ∧ 0 ≤ (padAndClampBox W H b).y ∧
    (padAndClampBox W H b).x + (padAndClampBox W H b).w ≤ W ∧
    (padAndClampBox W H b).y + (padAndClampBox W H b).h ≤ H := by
  have hb : padAndClampBox W H b =
      ⟨max 0 (b.x - 2 * max b.w b.h / 10),
       max 0 (b.y - 2 * max b.w b.h / 10),
       min (W - max 0 (b.x - 2 * max b.w b.h / 10)) (b.w + 2 * (2 * max b.w b.h / 10)),
       min (H - max 0 (b.y - 2 * max b.w b.h / 10)) (b.h + 2 * (2 * max b.w b.h / 10))⟩ := rfl
  simp only [hb]
  refine ⟨le_max_left 0 _, le_max_left 0 _, ?_, ?_⟩
  · have h1 := min_le_left (W - max 0 (b.x - 2 * max b.w b.h / 10))
      (b.w + 2 * (2 * max b.w b.h / 10))
    linarith
  · have h1 := min_le_left (H - max 0 (b.y - 2 * max b.w b.h / 10))
      (b.h + 2 * (2 * max b.w b.h / 10))
    linarith

end EchoMind

namespace EchoMind

/-! ## Video sampler (`extract_frame_from_video` in `facial_emotion.py`) -/

/-- Embedding of `extract_frame_from_video` over the decoded frame sequence
of the clip: `total_frames` is the container's frame count; when it is zero
the function raises `ValueError("Video has no frames")`, otherwise it seeks
to frame `total_frames // 2`, reads it, and re-encodes it as a standalone
JPEG (modelled by `encode`).  Raised errors are modelled as
`Except.error`. -/
def extract_frame_from_video {Frame Image : Type} (encode : Frame → Image)
    (frames : List Frame) : Except String Image :=
  if frames.length = 0 then
    Except.error "Video has no frames"
  else
    match frames[frames.length / 2]? with
    | some frame => Except.ok (encode frame)
    | none => Except.error "Could not read frame from video"

end EchoMind

namespace EchoMind

/-- C7: video frame extraction on a clip with `N` decodable frames always
selects the frame at index `⌊N/2⌋` and returns it re-encoded; when `N = 0`
it fails with a decode error and never returns a frame. -/
theorem extract_frame_middle {Frame Image : Type} (encode : Frame → Image)
    (frames : List Frame) :
    (frames.length = 0 →
      extract_frame_from_video encode frames =
        Except.error "Video has no frames") ∧
    (∀ h : frames.length ≠ 0,
      extract_frame_from_video encode frames =
        Except.ok (encode (frames.get
          ⟨frames.length / 2, Nat.div_lt_self (Nat.pos_of_ne_zero h) one_lt_two⟩))) := by
  constructor
  · intro h
    simp [extract_frame_from_video, h]
  · intro h
    have hlt : frames.length / 2 < frames.length :=
      Nat.div_lt_self (Nat.pos_of_ne_zero h) one_lt_two
    simp only [extract_frame_from_video, if_neg h]
    rw [List.getElem?_eq_getElem hlt]
    simp [List.get_eq_getElem]

/-- C7 witness: a three-frame clip yields frame index 1, and the empty clip
yields the decode error. -/
theorem extract_frame_middle_witness :
    extract_frame_from_video (fun n => n + 100) ([10, 20, 30] : List ℕ) =
      Except.ok 120 ∧
    extract_frame_from_video (fun n => n + 100) ([] : List ℕ) =
      Except.error "Video has no frames" := by
  constructor
  · exact (extract_frame_middle (fun n => n + 100) ([10, 20, 30] : List ℕ)).2 (by decide)
  · exact (extract_frame_middle (fun n => n + 100) ([] : List ℕ)).1 rfl

end EchoMind

namespace EchoMind

/-! ## Report and warning endpoints (`src/backend/main.py`) -/

/-- A stored conversation row as the analytics endpoints read it: a
timestamp (in days) and the nullable sentiment score. -/
structure ChatRow where
  ts : ℤ
  sentiment_score : Option ℚ
deriving DecidableEq

/-- Mean of `sentiment_score or 0` over a list of rows, 0 on an empty list
(`sum(c.sentiment_score or 0 for c in h) / len(h) if h else 0`). -/
def avgScoreOr0 (rows : List ChatRow) : ℚ :=
  if rows = [] then 0
  else (rows.map (fun c => c.sentiment_score.getD 0)).sum / rows.length

/-- Trend computation of `get_monthly_report`: `month_ago = now - 30` days;
`first_half` holds the rows with `timestamp >= month_ago + 15 days` (the
chronologically later half of the window), `second_half` the rows before
that cut; the label is `"improving"` when `second_avg > first_avg`,
`"declining"` when `second_avg < first_avg`, else `"stable"`. -/
def monthly_sentiment_trend (now : ℤ) (chats : List ChatRow) : String :=
  let month_ago := now - 30
  let first_half := chats.filter (fun c => decide (month_ago + 15 ≤ c.ts))
  let second_half := chats.filter (fun c => decide (c.ts < month_ago + 15))
  let first_avg := avgScoreOr0 first_half
  let second_avg := avgScoreOr0 second_half
  if second_avg > first_avg then "improving"
  else if second_avg < first_avg then "declining"
  else "stable"

/-- Mean of a list of rationals (`sum(xs) / len(xs)`). -/
def meanQ (l : List ℚ) : ℚ := l.sum / l.length

/-- The sentiment-drop branch of `detect_warning_signs`, over the rows the
trailing-7-day query returns, in the order the database returns them — the
query has no `order_by` clause, so the rows arrive in the store's default
(insertion) order.  `c.sentiment_score or 0` maps NULL to 0. -/
def sentiment_drop_fires (recent_chats : List ChatRow) : Bool :=
  if 3 ≤ recent_chats.length then
    let recent_sentiment :=
      (recent_chats.take 3).map (fun c => c.sentiment_score.getD 0)
    let older_sentiment :=
      if 6 ≤ recent_chats.length then
        ((recent_chats.drop 3).take 3).map (fun c => c.sentiment_score.getD 0)
      else []
    if older_sentiment.isEmpty then false
    else decide (meanQ recent_sentiment < meanQ older_sentiment - 3/10)
  else false

end EchoMind

namespace EchoMind

/-- C1: at `now = 30` with one later-half record (day 20, score -1/2) and one
earlier-half record (day 5, score 1/2), the chronologically later half's mean
(-1/2) is strictly below the earlier half's (1/2) — the claim requires the
label "declining" — yet `get_monthly_report` returns "improving", because its
comparison reads the two halves swapped (`first_half` selects the recent
rows but is compared as if it were the earlier ones). -/
theorem monthly_trend_label_reversed :
    monthly_sentiment_trend 30 [⟨20, some (-(1/2))⟩, ⟨5, some (1/2)⟩] =
      "improving" ∧
    avgScoreOr0 [⟨20, some (-(1/2))⟩] < avgScoreOr0 [⟨5, some (1/2)⟩] := by
  constructor
  · norm_num [monthly_sentiment_trend, avgScoreOr0, List.filter_cons]
  · norm_num [avgScoreOr0]

/-- C4: six records in the window, fetched oldest first (ts 1..6, scores
1/2, 1/2, 1/2, 0, 0, 0): the 3 most recent records (mean 0) sit 1/2 below
the next 3 older ones (mean 1/2), so the claim requires the SentimentDrop
warning to fire; the code, slicing the un-ordered query result, compares the
oldest three against the newer ones and does not fire.  On the same window
presented newest first it does fire — the check depends on fetch order, not
on timestamps. -/
theorem sentiment_drop_depends_on_fetch_order :
    sentiment_drop_fires
      [⟨1, some (1/2)⟩, ⟨2, some (1/2)⟩, ⟨3, some (1/2)⟩,
       ⟨4, some 0⟩, ⟨5, some 0⟩, ⟨6, some 0⟩] = false ∧
    sentiment_drop_fires
      [⟨6, some 0⟩, ⟨5, some 0⟩, ⟨4, some 0⟩,
       ⟨3, some (1/2)⟩, ⟨2, some (1/2)⟩, ⟨1, some (1/2)⟩] = true ∧
    meanQ [0, 0, 0] < meanQ [1/2, 1/2, 1/2] - 3/10 := by
  refine ⟨?_, ?_, ?_⟩ <;>
    norm_num [sentiment_drop_fires, meanQ]

end EchoMind

namespace EchoMind

/-! ## Persistence best-effort behaviour (`ask`, `analyze_audio`,
`analyze_face` in `src/backend/main.py`) -/

/-- Outcome of the `db.add` / `db.commit` pair for one record. -/
inductive PersistOutcome where
  | ok
  | failure (msg : String)
deriving DecidableEq

/-- A persisted conversation record, reduced to the fields every endpoint
writes into `ChatConversation`. -/
structure SavedRecord where
  user_message : String
  assistant_response : String
deriving DecidableEq

/-- Embedding of the `/ask` endpoint after the agent produced `reply`: the
record insert (`db.add(chat_record); db.commit()`) is not wrapped in any
`try/except`, so a persistence failure propagates as an exception
(`Except.error`) and the reply is never returned; on success the reply is
returned and exactly one record is appended to the store. -/
def ask (store : List SavedRecord) (message reply : String)
    (persist : PersistOutcome) : Except String (String × List SavedRecord) :=
  let record : SavedRecord := ⟨message, reply⟩
  match persist with
  | .ok => .ok (reply, store ++ [record])
  | .failure e => .error e

/-- Embedding of the persistence step of `/analyze_audio` after the
classifier produced `primary` and the record text was assembled: the insert
is wrapped in `try/except`, and on failure the session is rolled back (no
record is appended) while the classification result is still returned. -/
def analyze_audio_persist (store : List SavedRecord)
    (primary record_text : String) (persist : PersistOutcome) :
    String × List SavedRecord :=
  let record : SavedRecord := ⟨"[Voice note]", record_text⟩
  match persist with
  | .ok => (primary, store ++ [record])
  | .failure _ => (primary, store)

/-- Embedding of the persistence step of `/analyze_face`, whose insert is
likewise guarded by `try/except` with rollback. -/
def analyze_face_persist (store : List SavedRecord)
    (primary record_text : String) (persist : PersistOutcome) :
    String × List SavedRecord :=
  let record : SavedRecord := ⟨"[Photo/Video capture]", record_text⟩
  match persist with
  | .ok => (primary, store ++ [record])
  | .failure _ => (primary, store)

end EchoMind

namespace EchoMind

/-- C5 counterexample: a failing commit on the text-chat path makes `/ask`
raise instead of returning the chat reply — there the persistence failure is
not swallowed, contradicting the claim for the text-chat interaction. -/
theorem ask_propagates_persistence_failure :
    ask [] "hello" "hi there" (PersistOutcome.failure "db down") =
      Except.error "db down" := rfl

/-- C5 amended: the voice and face paths return the classification whether or
not persistence succeeds, appending exactly one record on success and none on
failure; the text-chat path appends exactly one record and returns the reply
when persistence succeeds, but propagates the failure — returning no reply —
when it fails. -/
theorem persistence_best_effort (store : List SavedRecord)
    (message reply primary record_text : String) (p : PersistOutcome) :
    (analyze_audio_persist store primary record_text p).1 = primary ∧
    (analyze_face_persist store primary record_text p).1 = primary ∧
    (p = PersistOutcome.ok →
      (analyze_audio_persist store primary record_text p).2.length =
        store.length + 1 ∧
      (analyze_face_persist store primary record_text p).2.length =
        store.length + 1 ∧
      ask store message reply p =
        Except.ok (reply, store ++ [⟨message, reply⟩])) ∧
    (∀ e, p = PersistOutcome.failure e →
      (analyze_audio_persist store primary record_text p).2 = store ∧
      (analyze_face_persist store primary record_text p).2 = store ∧
      ask store message reply p = Except.error e) := by
  cases p <;>
    simp [ask, analyze_audio_persist, analyze_face_persist]

/-- C5 witness: concrete instantiation at a successful and at a failing
commit. -/
theorem persistence_best_effort_witness :
    (analyze_audio_persist [] "happy" "txt" PersistOutcome.ok).2.length = 1 ∧
    ask [] "hello" "hi" PersistOutcome.ok =
      Except.ok ("hi", [⟨"hello", "hi"⟩]) ∧
    (analyze_face_persist [] "sad" "txt" (PersistOutcome.failure "disk full")).2 = [] ∧
    ask [] "hello" "hi" (PersistOutcome.failure "disk full") =
      Except.error "disk full" := by
  have h1 := persistence_best_effort [] "hello" "hi" "happy" "txt" PersistOutcome.ok
  have h2 := persistence_best_effort [] "hello" "hi" "sad" "txt"
    (PersistOutcome.failure "disk full")
  exact ⟨(h1.2.2.1 rfl).1, (h1.2.2.1 rfl).2.2,
    (h2.2.2.2 "disk full" rfl).2.1, (h2.2.2.2 "disk full" rfl).2.2⟩

end EchoMind
